import Mathlib

/-!
Shallow embedding of the invite-registration pager
(`src/login-workflow/src/screens/InviteRegistrationPager.tsx`) and of the
account-details sub-screen's exported data (`AccountDetails.tsx`).

The component is a thin wizard state machine.  Rendering bodies, styling and
navigation bindings are not modelled; the embedding covers the data the
verified claims are about: the ordered page list with its `canGoForward` /
`canGoBack` predicates, the `advancePage` transition (including its exit,
registration and index-update branches), the registration-success effect, the
mount-time validation effect, the top-level render branch selection, and the
three async operations with their catch-all error handling.

JavaScript numbers holding the page index are modelled as `Int` (the code can
produce negative indices via `setCurrentPage(currentPage + delta)`); JS
records built by object spread are modelled as association lists in which a
later binding overrides an earlier one (lookup takes the last match), and
`Object.keys` enumeration of the integer-keyed custom-details group is
modelled by the key-ordered list the component maintains.
-/

/-- `AccountDetailInformation` from `AccountDetails.tsx`: the core account
details record (first name, last name). -/
structure AccountDetailInformation where
  firstName : String
  lastName : String
deriving DecidableEq, Repr

/-- `emptyAccountDetailInformation` from `AccountDetails.tsx`: defaults for
the account details inputs. -/
def emptyAccountDetailInformation : AccountDetailInformation :=
  { firstName := "", lastName := "" }

/-- One entry of the `RegistrationPages` array.  `pageBody` is a renderable
and is not modelled; `pageTitle` is a localized string looked up through
`t(...)` and is kept as the translation key. -/
structure RegistrationPage where
  name : String
  pageTitle : String
  canGoForward : Bool
  canGoBack : Bool
deriving DecidableEq, Repr

/-- One group of the `customAccountDetails` record: `{ values, valid }` as
stored by the custom-page `onDetailsChanged` callback.  `values` is the
custom details record, as an association list. -/
structure CustomRegistrationDetails where
  values : List (String × String)
  valid : Bool
deriving DecidableEq, Repr

/-- The `RegistrationPages` array: the three fixed pages (Eula,
CreatePassword, AccountDetails) followed by the injected custom pages
(`customDetails.slice(1).filter(item => item !== null)`, each with
`canGoForward: true, canGoBack: true`) followed by the fixed Complete page.
A custom entry is `none` when the injected component slot is `null`.
`canGoForward` of the fixed pages mirrors the source exactly:
`eulaAccepted`, `password.length > 0`, `accountDetails !== null`. -/
def buildRegistrationPages (eulaAccepted : Bool) (password : String)
    (accountDetails : Option AccountDetailInformation)
    (customDetails : List (Option Unit)) : List RegistrationPage :=
  ([{ name := "Eula", pageTitle := "REGISTRATION.STEPS.LICENSE",
      canGoForward := eulaAccepted, canGoBack := false },
    { name := "CreatePassword", pageTitle := "REGISTRATION.STEPS.PASSWORD",
      canGoForward := password.length > 0, canGoBack := true },
    { name := "AccountDetails", pageTitle := "REGISTRATION.STEPS.ACCOUNT_DETAILS",
      canGoForward := accountDetails.isSome, canGoBack := true }]
    ++ (((customDetails.drop 1).filter (fun item => item ≠ none)).enum.map
        (fun p =>
          { name := "CustomPage" ++ toString (p.1 + 1),
            pageTitle := "REGISTRATION.STEPS.ACCOUNT_DETAILS",
            canGoForward := true, canGoBack := true })))
  ++ [{ name := "Complete", pageTitle := "REGISTRATION.STEPS.COMPLETE",
        canGoForward := true, canGoBack := false }]

/-- `canProgress`: `RegistrationPages[currentPage].canGoForward ?? false`.
An out-of-range (or negative) JS index yields `undefined`, so the default
`false` applies there. -/
def canProgress (pages : List RegistrationPage) (currentPage : Int) : Bool :=
  if 0 ≤ currentPage then
    (((pages.get? currentPage.toNat).map (fun page => page.canGoForward)).getD false)
  else false

/-- `canGoBackProgress`: `RegistrationPages[currentPage].canGoBack ?? true`. -/
def canGoBackProgress (pages : List RegistrationPage) (currentPage : Int) : Bool :=
  if 0 ≤ currentPage then
    (((pages.get? currentPage.toNat).map (fun page => page.canGoBack)).getD true)
  else true

/-- Observable outcome of one `advancePage(delta)` call: the page index after
the call (`newPage`, an `Int` because the JS update `currentPage + delta` is
unchecked), how many times `attemptRegistration` was invoked, and whether the
call navigated away to the Login screen (`exited`). -/
structure AdvanceOutcome where
  newPage : Int
  registrationCalls : Nat
  exited : Bool
deriving DecidableEq, Repr

/-- `advancePage` from `InviteRegistrationPager.tsx` (lines 388-422).
Branch order as in the source: `delta === 0` returns; first page and
`delta < 0` exits; last page and `delta > 0` exits; second-to-last page with
registration not yet succeeded, `canProgress()` and `delta > 0` fires
`attemptRegistration()`; otherwise `setCurrentPage(currentPage + delta)`. -/
def advancePage (pages : List RegistrationPage) (currentPage : Int)
    (registrationSuccess : Bool) (delta : Int) : AdvanceOutcome :=
  if delta = 0 then
    { newPage := currentPage, registrationCalls := 0, exited := false }
  else if currentPage = 0 ∧ delta < 0 then
    { newPage := currentPage, registrationCalls := 0, exited := true }
  else if currentPage = (pages.length : Int) - 1 ∧ 0 < delta then
    { newPage := currentPage, registrationCalls := 0, exited := true }
  else if currentPage = (pages.length : Int) - 2 ∧ registrationSuccess = false
      ∧ canProgress pages currentPage = true ∧ 0 < delta then
    { newPage := currentPage, registrationCalls := 1, exited := false }
  else
    { newPage := currentPage + delta, registrationCalls := 0, exited := false }

/-- The `useEffect` observing `registrationSuccess` (lines 295-300): when the
current page is the second-to-last index and registration has succeeded, jump
to `CompletePage = RegistrationPages.length - 1`; otherwise leave the index
alone. -/
def registrationSuccessEffect (pages : List RegistrationPage)
    (currentPage : Int) (registrationSuccess : Bool) : Int :=
  if currentPage = (pages.length : Int) - 2 ∧ registrationSuccess = true then
    (pages.length : Int) - 1
  else currentPage

/-- The four mutually exclusive top-level view states of the component. -/
inductive ViewState where
  | wizard
  | existingAccount
  | loading
  | validationError
deriving DecidableEq, Repr

/-- The render branch selection as written in the source (lines 491-545):
`!accountAlreadyExists && validationSuccess && !isValidationInTransit`
renders the wizard; else `accountAlreadyExists` renders the existing-account
screen; else `!validationComplete` renders the loading spinner; else the
validation error state. -/
def renderView (accountAlreadyExists validationSuccess isValidationInTransit
    validationComplete : Bool) : ViewState :=
  if (!accountAlreadyExists && validationSuccess && !isValidationInTransit) = true then
    ViewState.wizard
  else if accountAlreadyExists = true then
    ViewState.existingAccount
  else if (!validationComplete) = true then
    ViewState.loading
  else
    ViewState.validationError

/-- The render branch selection in the spec's words: existing-account found
first, then (validation succeeded and not in flight) showing the wizard, then
(validation not complete) showing the loading state, then the validation-failed
error state. -/
def renderViewSpec (accountAlreadyExists validationSuccess isValidationInTransit
    validationComplete : Bool) : ViewState :=
  if accountAlreadyExists = true then
    ViewState.existingAccount
  else if (validationSuccess && !isValidationInTransit) = true then
    ViewState.wizard
  else if (!validationComplete) = true then
    ViewState.loading
  else
    ViewState.validationError

/-- `routeParams?.code ?? 'NoCodeEntered'` (line 147). -/
def resolveValidationCode (routeCode : Option String) : String :=
  routeCode.getD "NoCodeEntered"

/-- The mount/update effect triggering invite-code validation (lines 317-321):
`if (!isValidationInTransit && !validationComplete && validationCode.length > 0)
 { void validateCode(); }`.  The result lists the `(code, email)` argument
pairs `validateUserRegistrationRequest` is called with during one run of the
effect: one call when the guard passes, none otherwise. -/
def validationMountEffect (isValidationInTransit validationComplete : Bool)
    (validationCode : String) (validationEmail : Option String) :
    List (String × Option String) :=
  if (!isValidationInTransit && !validationComplete
      && decide (validationCode.length > 0)) = true then
    [(validationCode, validationEmail)]
  else []

/-- Local state written by `validateCode` (lines 302-315):
`hasAcknowledgedError` and `accountAlreadyExists`. -/
structure ValidateOutcome where
  hasAcknowledgedError : Bool
  accountAlreadyExists : Bool
deriving DecidableEq, Repr

/-- `validateCode`: sets `hasAcknowledgedError` to false, awaits the external
validation call, sets `accountAlreadyExists` when the call resolves true, and
swallows any rejection (`catch { /* do nothing */ }`).  The external call's
resolution or rejection is passed in as `callResult`. -/
def validateCode (accountAlreadyExists : Bool)
    (callResult : Except String Bool) : ValidateOutcome :=
  match callResult with
  | Except.ok registrationComplete =>
      { hasAcknowledgedError := false,
        accountAlreadyExists :=
          if registrationComplete then true else accountAlreadyExists }
  | Except.error _ =>
      { hasAcknowledgedError := false,
        accountAlreadyExists := accountAlreadyExists }

/-- `loadAndCacheEula` (lines 175-184): when the cached `eulaContent` is
falsy (undefined or the empty string), await the EULA load and cache the
text; a rejection is swallowed and leaves the cache unchanged. -/
def loadAndCacheEula (eulaContent : Option String)
    (loadResult : Except String String) : Option String :=
  if (eulaContent.getD "").length = 0 then
    match loadResult with
    | Except.ok eulaText => some eulaText
    | Except.error _ => eulaContent
  else eulaContent

/-- `{...a, ...b}` object spread over two association-list records: bindings
of `b` come after bindings of `a`, and lookup takes the last match, so `b`
overrides `a` on shared keys. -/
def mergeRecords (a b : List (String × String)) : List (String × String) :=
  a ++ b

/-- The core account details record as spread into the submission payload. -/
def accountDetailsRecord (info : AccountDetailInformation) :
    List (String × String) :=
  [("firstName", info.firstName), ("lastName", info.lastName)]

/-- The flattening loop of `attemptRegistration` (lines 351-354):
`Object.keys(customAccountDetails || {})` in ascending key order, spreading
each group's `values` into one record.  `none` models a null
`customAccountDetails`. -/
def flattenCustomDetails
    (customAccountDetails : Option (List (Nat × CustomRegistrationDetails))) :
    List (String × String) :=
  ((customAccountDetails.getD []).map (fun group => group.2.values)).flatten

/-- The argument tuple passed to `completeRegistration`. -/
structure RegistrationPayload where
  password : String
  accountDetails : List (String × String)
  code : String
  email : Option String
deriving DecidableEq, Repr

/-- The payload `attemptRegistration` (lines 348-367) submits:
`{ password, accountDetails: { ...(accountDetails ?? emptyAccountDetailInformation),
...flattenedDetails } }` together with the validation code and email. -/
def attemptRegistrationPayload (password : String)
    (accountDetails : Option AccountDetailInformation)
    (customAccountDetails : Option (List (Nat × CustomRegistrationDetails)))
    (validationCode : String) (validationEmail : Option String) :
    RegistrationPayload :=
  { password := password,
    accountDetails :=
      mergeRecords
        (accountDetailsRecord (accountDetails.getD emptyAccountDetailInformation))
        (flattenCustomDetails customAccountDetails),
    code := validationCode,
    email := validationEmail }

/-- Local state written by one run of `attemptRegistration`: the cleared
`hasAcknowledgedError` flag and the payload it submitted.  A rejection of the
external call is swallowed (`catch { /* do nothing */ }`), so the outcome does
not depend on `callResult`. -/
structure RegistrationAttempt where
  hasAcknowledgedError : Bool
  submitted : RegistrationPayload
deriving DecidableEq, Repr

/-- `attemptRegistration` as a whole: sets `hasAcknowledgedError` to false,
builds and submits the payload, and returns normally whether the external
call resolves or rejects. -/
def attemptRegistrationRun (password : String)
    (accountDetails : Option AccountDetailInformation)
    (customAccountDetails : Option (List (Nat × CustomRegistrationDetails)))
    (validationCode : String) (validationEmail : Option String)
    (callResult : Except String Unit) : RegistrationAttempt :=
  match callResult with
  | Except.ok _ =>
      { hasAcknowledgedError := false,
        submitted := attemptRegistrationPayload password accountDetails
          customAccountDetails validationCode validationEmail }
  | Except.error _ =>
      { hasAcknowledgedError := false,
        submitted := attemptRegistrationPayload password accountDetails
          customAccountDetails validationCode validationEmail }

/-- `hasRegistrationTransitError` (line 162): the shared transit error
message is not null. -/
def hasRegistrationTransitError (transitErrorMessage : Option String) : Bool :=
  transitErrorMessage.isSome

/-- Visibility of the dismissible error dialog (lines 337-346):
`hasRegistrationTransitError && !hasAcknowledgedError`. -/
def errorDialogVisible (transitErrorMessage : Option String)
    (hasAcknowledgedError : Bool) : Bool :=
  hasRegistrationTransitError transitErrorMessage && !hasAcknowledgedError

/-- A concrete page list: no custom pages, no form field filled in yet
(the initial component state).  Length 4: Eula, CreatePassword,
AccountDetails, Complete. -/
def samplePagesEmpty : List RegistrationPage :=
  buildRegistrationPages false "" none []

/-- A concrete page list: no custom pages, every built-in form gate
satisfied (EULA accepted, non-empty password, account details present). -/
def samplePagesFilled : List RegistrationPage :=
  buildRegistrationPages true "secret" (some { firstName := "A", lastName := "B" }) []

/-- Bounds preservation of `advancePage` for the deltas the component
invokes (`-1`, `0`, `1`): a valid index stays valid. -/
theorem advancePage_newPage_bounds (pages : List RegistrationPage)
    (currentPage delta : Int) (registrationSuccess : Bool)
    (hlo : 0 ≤ currentPage) (hhi : currentPage < (pages.length : Int))
    (hdelta : delta = -1 ∨ delta = 0 ∨ delta = 1) :
    0 ≤ (advancePage pages currentPage registrationSuccess delta).newPage ∧
    (advancePage pages currentPage registrationSuccess delta).newPage
      < (pages.length : Int) := by
  unfold advancePage
  by_cases h0 : delta = 0
  · rw [if_pos h0]; exact ⟨hlo, hhi⟩
  rw [if_neg h0]
  by_cases h1 : currentPage = 0 ∧ delta < 0
  · rw [if_pos h1]; exact ⟨hlo, hhi⟩
  rw [if_neg h1]
  by_cases h2 : currentPage = (pages.length : Int) - 1 ∧ 0 < delta
  · rw [if_pos h2]; exact ⟨hlo, hhi⟩
  rw [if_neg h2]
  by_cases h3 : currentPage = (pages.length : Int) - 2 ∧ registrationSuccess = false
      ∧ canProgress pages currentPage = true ∧ 0 < delta
  · rw [if_pos h3]; exact ⟨hlo, hhi⟩
  rw [if_neg h3]; clear h3
  have hgoal : 0 ≤ currentPage + delta ∧ currentPage + delta < (pages.length : Int) := by
    omega
  exact hgoal

/-- Bounds preservation of the registration-success jump: a valid index
stays valid. -/
theorem registrationSuccessEffect_bounds (pages : List RegistrationPage)
    (currentPage : Int) (registrationSuccess : Bool)
    (hlo : 0 ≤ currentPage) (hhi : currentPage < (pages.length : Int)) :
    0 ≤ registrationSuccessEffect pages currentPage registrationSuccess ∧
    registrationSuccessEffect pages currentPage registrationSuccess
      < (pages.length : Int) := by
  unfold registrationSuccessEffect
  by_cases h : currentPage = (pages.length : Int) - 2 ∧ registrationSuccess = true
  · rw [if_pos h]; clear h; omega
  · rw [if_neg h]; clear h; exact ⟨hlo, hhi⟩

/-- C1 (counterexample): the registration-success effect is guarded by
`currentPage === RegistrationPages.length - 2`, so when the success signal
turns true while the index is 0 (a prior value other than second-to-last),
the index is NOT set to the last index, contradicting "for every prior
value of the index". -/
theorem registration_success_no_jump_from_first_page :
    ¬ (registrationSuccessEffect samplePagesEmpty 0 true =
        (samplePagesEmpty.length : Int) - 1) := by decide

/-- C1 (amended): when the registration success signal becomes true while
the current page index is the second-to-last index, the effect sets the
index to the last (Complete) index. -/
theorem registration_success_jump_on_second_to_last
    (pages : List RegistrationPage) (currentPage : Int)
    (h : currentPage = (pages.length : Int) - 2) :
    registrationSuccessEffect pages currentPage true =
      (pages.length : Int) - 1 := by
  unfold registrationSuccessEffect
  rw [if_pos ⟨h, rfl⟩]

/-- C1 witness: the amended jump at the concrete second-to-last index of the
four-page list. -/
theorem registration_success_jump_on_second_to_last_witness :
    ((2 : Int) = (samplePagesEmpty.length : Int) - 2) ∧
    registrationSuccessEffect samplePagesEmpty 2 true =
      (samplePagesEmpty.length : Int) - 1 :=
  ⟨by decide,
    registration_success_jump_on_second_to_last samplePagesEmpty 2 (by decide)⟩

/-- C2: on the second-to-last page, with a positive delta, `canGoForward`
true and registration not yet succeeded, `advancePage` fires
`attemptRegistration` exactly once and leaves the index unchanged. -/
theorem advance_second_to_last_registers_once (pages : List RegistrationPage)
    (currentPage delta : Int)
    (hpage : currentPage = (pages.length : Int) - 2)
    (hcan : canProgress pages currentPage = true)
    (hdelta : 0 < delta) :
    advancePage pages currentPage false delta =
      { newPage := currentPage, registrationCalls := 1, exited := false } := by
  unfold advancePage
  rw [if_neg (by omega), if_neg (by omega), if_neg (by omega),
    if_pos ⟨hpage, rfl, hcan, hdelta⟩]

/-- C2 witness: the registration branch at the concrete AccountDetails page
(index 2 of 4) with all form gates satisfied. -/
theorem advance_second_to_last_registers_once_witness :
    ((2 : Int) = (samplePagesFilled.length : Int) - 2 ∧
      canProgress samplePagesFilled 2 = true ∧ (0 : Int) < 1) ∧
    advancePage samplePagesFilled 2 false 1 =
      { newPage := 2, registrationCalls := 1, exited := false } :=
  ⟨⟨by decide, by decide, by decide⟩,
    advance_second_to_last_registers_once samplePagesFilled 2 1
      (by decide) (by decide) (by decide)⟩

/-- C3 (counterexample): `advancePage` applies an arbitrary delta unchecked
in its default branch, so from the valid index 1 of the four-page list a
call with delta = -5 produces the index -4, outside the valid range. -/
theorem advance_arbitrary_delta_escapes_range :
    ¬ (0 ≤ (advancePage samplePagesEmpty 1 false (-5)).newPage) := by decide

/-- C3 (amended): the index invariant 0 ≤ idx < pages.length is preserved
by `advancePage` for the deltas the component actually invokes (-1, 0, 1)
and by the registration-success jump; arbitrary integer deltas can escape
the range. -/
theorem page_index_stays_valid_for_unit_deltas (pages : List RegistrationPage)
    (currentPage delta : Int) (registrationSuccess : Bool)
    (hlo : 0 ≤ currentPage) (hhi : currentPage < (pages.length : Int))
    (hdelta : delta = -1 ∨ delta = 0 ∨ delta = 1) :
    (0 ≤ (advancePage pages currentPage registrationSuccess delta).newPage ∧
      (advancePage pages currentPage registrationSuccess delta).newPage
        < (pages.length : Int)) ∧
    (0 ≤ registrationSuccessEffect pages currentPage registrationSuccess ∧
      registrationSuccessEffect pages currentPage registrationSuccess
        < (pages.length : Int)) :=
  ⟨advancePage_newPage_bounds pages currentPage delta registrationSuccess hlo hhi hdelta,
    registrationSuccessEffect_bounds pages currentPage registrationSuccess hlo hhi⟩

/-- C3 witness: the preserved invariant at the concrete index 1 of the
four-page list with delta 1. -/
theorem page_index_stays_valid_for_unit_deltas_witness :
    (0 ≤ (1 : Int) ∧ (1 : Int) < (samplePagesEmpty.length : Int) ∧
      ((1 : Int) = -1 ∨ (1 : Int) = 0 ∨ (1 : Int) = 1)) ∧
    ((0 ≤ (advancePage samplePagesEmpty 1 false 1).newPage ∧
      (advancePage samplePagesEmpty 1 false 1).newPage
        < (samplePagesEmpty.length : Int)) ∧
    (0 ≤ registrationSuccessEffect samplePagesEmpty 1 false ∧
      registrationSuccessEffect samplePagesEmpty 1 false
        < (samplePagesEmpty.length : Int))) :=
  ⟨⟨by decide, by decide, by decide⟩,
    page_index_stays_valid_for_unit_deltas samplePagesEmpty 1 1 false
      (by decide) (by decide) (by decide)⟩

/-- C4: the source's render branch order (wizard condition tested first, but
conjoined with `!accountAlreadyExists`) selects the same view as the spec's
priority order (existing-account first, then wizard, then loading, then
error), and whenever `accountAlreadyExists` is true the existing-account
screen is rendered, never the wizard. -/
theorem render_branch_selection :
    ∀ accountAlreadyExists validationSuccess isValidationInTransit
        validationComplete : Bool,
      renderView accountAlreadyExists validationSuccess isValidationInTransit
          validationComplete =
        renderViewSpec accountAlreadyExists validationSuccess isValidationInTransit
          validationComplete ∧
      renderView true validationSuccess isValidationInTransit validationComplete =
        ViewState.existingAccount := by decide

/-- C5: at the boundaries, `advancePage` exits the wizard instead of
changing the index: any negative delta on the first page, and any positive
delta on the last page, navigate away with the index untouched and no
registration call. -/
theorem advance_boundary_exits (pages : List RegistrationPage)
    (currentPage delta : Int) (registrationSuccess : Bool)
    (h : (currentPage = 0 ∧ delta < 0) ∨
      (currentPage = (pages.length : Int) - 1 ∧ 0 < delta)) :
    advancePage pages currentPage registrationSuccess delta =
      { newPage := currentPage, registrationCalls := 0, exited := true } := by
  unfold advancePage
  rcases h with ⟨h1, h2⟩ | ⟨h1, h2⟩
  · rw [if_neg (by omega), if_pos ⟨h1, h2⟩]
  · rw [if_neg (by omega), if_neg (by omega), if_pos ⟨h1, h2⟩]

/-- C5 witness: backing out of the first page of the four-page list. -/
theorem advance_boundary_exits_witness :
    (((0 : Int) = 0 ∧ (-1 : Int) < 0) ∨
      ((0 : Int) = (samplePagesEmpty.length : Int) - 1 ∧ (0 : Int) < -1)) ∧
    advancePage samplePagesEmpty 0 false (-1) =
      { newPage := 0, registrationCalls := 0, exited := true } :=
  ⟨Or.inl ⟨rfl, by decide⟩,
    advance_boundary_exits samplePagesEmpty 0 (-1) false (Or.inl ⟨rfl, by decide⟩)⟩

/-- C6: on a mount where validation is neither in flight nor complete, the
effect triggers exactly one validation call carrying the entry parameters
(code "ABC" resolved through the route default, email undefined); and the
call is skipped whenever validation is in flight or already complete. -/
theorem validation_mount_triggers_once (code : String) (email : Option String) :
    validationMountEffect false false (resolveValidationCode (some "ABC")) none =
      [("ABC", none)] ∧
    validationMountEffect true false code email = [] ∧
    validationMountEffect false true code email = [] ∧
    validationMountEffect true true code email = [] := by
  refine ⟨by decide, ?_, ?_, ?_⟩ <;> simp [validationMountEffect]

/-- C7: outside the registration branch, forward navigation is not gated by
`canGoForward`: on any non-last page where the registration branch's
conditions do not all hold, `advancePage(1)` increments the index and fires
no registration call, whatever `canGoForward` is. -/
theorem advance_forward_ungated_outside_registration
    (pages : List RegistrationPage) (currentPage : Int)
    (registrationSuccess : Bool)
    (hlast : ¬ currentPage = (pages.length : Int) - 1)
    (hreg : ¬ (currentPage = (pages.length : Int) - 2 ∧ registrationSuccess = false
        ∧ canProgress pages currentPage = true)) :
    advancePage pages currentPage registrationSuccess 1 =
      { newPage := currentPage + 1, registrationCalls := 0, exited := false } := by
  unfold advancePage
  rw [if_neg (by omega), if_neg (by omega), if_neg (by omega),
    if_neg (fun hc => hreg ⟨hc.1, hc.2.1, hc.2.2.1⟩)]

/-- C7 witness: on the second-to-last page (AccountDetails, index 2 of 4)
with `canGoForward` false, `advancePage(1)` moves to the Complete page with
no registration call. -/
theorem advance_forward_ungated_witness :
    ((¬ (2 : Int) = (samplePagesEmpty.length : Int) - 1) ∧
      ¬ ((2 : Int) = (samplePagesEmpty.length : Int) - 2 ∧ false = false
          ∧ canProgress samplePagesEmpty 2 = true)) ∧
    advancePage samplePagesEmpty 2 false 1 =
      { newPage := 2 + 1, registrationCalls := 0, exited := false } :=
  ⟨⟨by decide, by decide⟩,
    advance_forward_ungated_outside_registration samplePagesEmpty 2 false
      (by decide) (by decide)⟩

/-- C8: the three async operations swallow every rejection of the underlying
call and return normally — `validateCode` only clears the acknowledged-error
flag, `loadAndCacheEula` leaves the cache unchanged, `attemptRegistration`
reaches the same state as on success — and the user-visible error is derived
solely from the shared transit-error-message field through the dismissible
dialog's visibility. -/
theorem async_failures_swallowed (msg : String) (accountAlreadyExists : Bool)
    (eulaContent : Option String) (password : String)
    (accountDetails : Option AccountDetailInformation)
    (customAccountDetails : Option (List (Nat × CustomRegistrationDetails)))
    (validationCode : String) (validationEmail : Option String)
    (transitErrorMessage : Option String) (hasAcknowledgedError : Bool) :
    validateCode accountAlreadyExists (Except.error msg) =
      { hasAcknowledgedError := false,
        accountAlreadyExists := accountAlreadyExists } ∧
    loadAndCacheEula eulaContent (Except.error msg) = eulaContent ∧
    attemptRegistrationRun password accountDetails customAccountDetails
        validationCode validationEmail (Except.error msg) =
      attemptRegistrationRun password accountDetails customAccountDetails
        validationCode validationEmail (Except.ok ()) ∧
    errorDialogVisible transitErrorMessage hasAcknowledgedError =
      (transitErrorMessage.isSome && !hasAcknowledgedError) := by
  refine ⟨rfl, ?_, rfl, rfl⟩
  unfold loadAndCacheEula
  split
  · rfl
  · rfl

/-- C9: `advancePage(0)` returns before touching anything: index unchanged,
no registration call, no navigation. -/
theorem advance_zero_is_noop (pages : List RegistrationPage)
    (currentPage : Int) (registrationSuccess : Bool) :
    advancePage pages currentPage registrationSuccess 0 =
      { newPage := currentPage, registrationCalls := 0, exited := false } := by
  unfold advancePage
  rw [if_pos rfl]

/-- C10: with `accountDetails` null, `attemptRegistration` still submits: the
payload is the empty defaults (firstName "", lastName "") merged with the
flattened custom per-page details, alongside the password, code and email. -/
theorem registration_with_null_account_details (password : String)
    (customAccountDetails : Option (List (Nat × CustomRegistrationDetails)))
    (validationCode : String) (validationEmail : Option String) :
    attemptRegistrationPayload password none customAccountDetails
        validationCode validationEmail =
      { password := password,
        accountDetails := [("firstName", ""), ("lastName", "")]
          ++ flattenCustomDetails customAccountDetails,
        code := validationCode, email := validationEmail } := rfl
